import Mathlib

/-!
Verification of the Kernel_Monitor repository.

The development shallowly embeds the two source files:

* `src/kernel_monitor.c` — the snapshot provider.  Its driving function
  `proc_show` walks the process table and serializes CPU, memory and
  process statistics into one text block.  We model the platform inputs
  (CPU counters, memory counters, the process list with an optional
  memory-mapping page count per task) as explicit data, and `proc_show`
  as a pure function from those inputs to the rendered `String` (plus,
  for the resource claims, a trace of acquire/release events).

* `src/monitor_app.c` — the snapshot client.  The outcome of the single
  `open`/`read` of `/proc/kernel_monitor` is modelled by a `KernelRead`
  value; `read_kernel_data`, `display_data`, `watch_mode` and the option
  loop of `main` are modelled as pure functions over it.

Machine integers (`unsigned long`, `u64`) are modelled as `Nat` with an
explicit `% 2 ^ 64` wherever the C code multiplies (the only place
overflow could occur); `int`/`pid_t` values are `Int`.
-/

set_option maxRecDepth 40000

namespace KernelMonitor

/-- The modulus `2 ^ 64` of the 64-bit unsigned arithmetic performed by
`proc_show` (`unsigned long` on the 64-bit kernel). -/
def U64 : Nat := 2 ^ 64

/-- Per-CPU time counters read from `kcpustat_cpu(0)`, in nanoseconds. -/
structure CpuStat where
  user : Nat
  system : Nat
  idle : Nat

/-- Aggregate memory counters read by `si_meminfo`, in pages. -/
structure MemInfo where
  totalram : Nat
  freeram : Nat
  sharedram : Nat
  bufferram : Nat

/-- One task of the process table as `proc_show` observes it: its `comm`
name, its `pid`, and — when `get_task_mm` returns a non-NULL mapping —
the `total_vm` page count of that mapping (`none` models a kernel thread
whose mapping context is unavailable). -/
structure Task where
  comm : String
  pid : Int
  mm : Option Nat

/-- A run of `n` space characters, as emitted by `seq_printf` field padding. -/
def spaces (n : Nat) : String := String.mk (List.replicate n ' ')

/-- Left-justified padding to width `w`, the semantics of a `%-Ns` /
`%-Nd` / `%-Nlu` conversion: the text followed by enough spaces to reach
width `w` (no padding when the text is already at least `w` long). -/
def padRight (s : String) (w : Nat) : String := s ++ spaces (w - s.length)

/-- The value `(mm->total_vm * 4)` in 64-bit unsigned arithmetic: the Memory (KB)
value printed for one process (4 KiB pages converted to KB). -/
def residentKB (totalVm : Nat) : Nat := totalVm * 4 % U64

/-- The value `(pages * 4) / 1024` in 64-bit unsigned arithmetic: the MB value
printed next to a page count. -/
def mbOf (pages : Nat) : Nat := pages * 4 % U64 / 1024

/-- One process row, `seq_printf(m, "%-20s %-8d %-12lu\n", comm, pid,
total_vm * 4)`. -/
def procRow (comm : String) (pid : Int) (totalVm : Nat) : String :=
  padRight comm 20 ++ " " ++ padRight (toString pid) 8 ++ " " ++
    padRight (toString (residentKB totalVm)) 12 ++ "\n"

/-- The 43-character separator line of the snapshot banner. -/
def sepLine : String := String.mk (List.replicate 43 '=') ++ "\n"

/-- The banner printed at the top of every snapshot (`MODULE_VERSION` is
`"1.0.0"`). -/
def headerText : String :=
  sepLine ++
  "     Linux Kernel Monitor v1.0.0\n" ++
  sepLine ++ "\n"

/-- The CPU statistics block of the snapshot. -/
def cpuBlock (c : CpuStat) : String :=
  "CPU Statistics (CPU 0):\n" ++
  "  User Time:   " ++ toString c.user ++ " ns\n" ++
  "  System Time: " ++ toString c.system ++ " ns\n" ++
  "  Idle Time:   " ++ toString c.idle ++ " ns\n\n"

/-- The memory statistics block of the snapshot. -/
def memBlock (mi : MemInfo) : String :=
  "Memory Statistics:\n" ++
  "  Total RAM:   " ++ toString mi.totalram ++ " pages (" ++
    toString (mbOf mi.totalram) ++ " MB)\n" ++
  "  Free RAM:    " ++ toString mi.freeram ++ " pages (" ++
    toString (mbOf mi.freeram) ++ " MB)\n" ++
  "  Shared RAM:  " ++ toString mi.sharedram ++ " pages\n" ++
  "  Buffer RAM:  " ++ toString mi.bufferram ++ " pages\n\n"

/-- The process table heading, `seq_printf(m, "%-20s %-8s %-12s\n",
"Name", "PID", "Memory (KB)")` followed by the dashed rule. -/
def procHeaderText : String :=
  "Process Information:\n" ++
  padRight ("Name") 20 ++ " " ++ padRight ("PID") 8 ++ " " ++
    padRight ("Memory (KB)") 12 ++ "\n" ++
  String.mk (List.replicate 43 '-') ++ "\n"

/-- The `for_each_process` loop of `proc_show`: for each task whose
mapping is available it prints a row and increments `total_processes`;
tasks without a mapping are skipped.  Returns the concatenated rows and
the final counter value. -/
def procLoop : List Task → String × Nat
  | [] => ("", 0)
  | t :: ts =>
    let rest := procLoop ts
    match t.mm with
    | some tv => (procRow t.comm t.pid tv ++ rest.1, rest.2 + 1)
    | none => rest

/-- The footer, `seq_printf(m, "\nTotal Processes: %lu\n", total_processes)`.
Note the leading `"\n"`: the code emits a blank line between the last
process row and the `Total Processes:` line. -/
def footerText (n : Nat) : String := "\nTotal Processes: " ++ toString n ++ "\n"

/-- Function `proc_show`: the full snapshot text produced by one read of
`/proc/kernel_monitor`, given the observed CPU counters, memory counters
and process table. -/
def proc_show (c : CpuStat) (mi : MemInfo) (tasks : List Task) : String :=
  headerText ++ cpuBlock c ++ memBlock mi ++ procHeaderText ++
    (procLoop tasks).1 ++ footerText (procLoop tasks).2

/-- The list of process rows rendered in a snapshot: one row per task
with an available memory mapping, in enumeration order. -/
def processRows (tasks : List Task) : List String :=
  tasks.filterMap (fun t => t.mm.map (fun tv => procRow t.comm t.pid tv))

/-- Concatenation of the rendered rows. -/
def renderedRows (tasks : List Task) : String :=
  (processRows tasks).foldr (fun a b => a ++ b) ""

theorem procLoop_spec (tasks : List Task) :
    (procLoop tasks).2 = (processRows tasks).length ∧
    (procLoop tasks).1 = renderedRows tasks := by
  induction tasks with
  | nil => exact ⟨rfl, rfl⟩
  | cons t ts ih =>
    cases h : t.mm with
    | none =>
      simpa [procLoop, processRows, renderedRows, List.filterMap_cons, h] using ih
    | some tv =>
      simp [procLoop, processRows, renderedRows, List.filterMap_cons, h, ih.1, ih.2]

/-- C1.  In every generated snapshot the count printed in the
`Total Processes:` footer equals the number of process rows rendered in
the table: the loop counter of `proc_show` always equals
`len(processes)`, and the snapshot text is exactly the fixed blocks, the
rendered rows, and a footer displaying that derived count — the count is
obtained by counting appended rows, never stored independently. -/
theorem total_processes_eq_len_processes (tasks : List Task) :
    (procLoop tasks).2 = (processRows tasks).length ∧
    (∀ (c : CpuStat) (mi : MemInfo),
      proc_show c mi tasks =
        headerText ++ cpuBlock c ++ memBlock mi ++ procHeaderText ++
          renderedRows tasks ++ footerText ((processRows tasks).length)) := by
  obtain ⟨h2, h1⟩ := procLoop_spec tasks
  refine ⟨h2, fun c mi => ?_⟩
  rw [proc_show, h1, h2]

/-- Predicate `isPrefixChars n h`: decides whether the character list `n` is a
prefix of `h`. -/
def isPrefixChars : List Char → List Char → Bool
  | [], _ => true
  | _ :: _, [] => false
  | a :: as, b :: bs => a == b && isPrefixChars as bs

/-- Predicate `infixChars n h`: decides whether the character list `n` occurs
contiguously inside `h`. -/
def infixChars : List Char → List Char → Bool
  | n, [] => isPrefixChars n []
  | n, b :: bs => isPrefixChars n (b :: bs) || infixChars n bs

theorem isPrefixChars_iff (n : List Char) :
    ∀ h : List Char, isPrefixChars n h = true ↔ ∃ t, h = n ++ t := by
  induction n with
  | nil => intro h; simp [isPrefixChars]
  | cons a as ih =>
    intro h
    cases h with
    | nil => simp [isPrefixChars]
    | cons b bs =>
      simp only [isPrefixChars, Bool.and_eq_true, beq_iff_eq, ih bs,
        List.cons_append, List.cons.injEq]
      constructor
      · rintro ⟨rfl, t, rfl⟩; exact ⟨t, rfl, rfl⟩
      · rintro ⟨t, rfl, rfl⟩; exact ⟨rfl, t, rfl⟩

theorem infixChars_iff (n : List Char) :
    ∀ h : List Char, infixChars n h = true ↔ ∃ pre post, h = pre ++ n ++ post := by
  intro h
  induction h with
  | nil =>
    simp only [infixChars, isPrefixChars_iff]
    constructor
    · rintro ⟨t, ht⟩; exact ⟨[], t, ht⟩
    · rintro ⟨pre, post, hp⟩
      cases pre with
      | nil => exact ⟨post, by simpa using hp⟩
      | cons x xs => simp at hp
  | cons b bs ih =>
    simp only [infixChars, Bool.or_eq_true, isPrefixChars_iff, ih]
    constructor
    · rintro (⟨t, ht⟩ | ⟨pre, post, hp⟩)
      · exact ⟨[], t, by simpa using ht⟩
      · exact ⟨b :: pre, post, by simp [hp]⟩
    · rintro ⟨pre, post, hp⟩
      cases pre with
      | nil => exact Or.inl ⟨post, by simpa using hp⟩
      | cons x xs =>
        simp only [List.cons_append, List.cons.injEq] at hp
        exact Or.inr ⟨xs, post, hp.2⟩

/-- The snapshot of the single-entry process list of claim C2: one task
named `bashd`, pid 1234, with 2048 virtual pages (2048 × 4 = 8192 KB). -/
def c2Out : String := proc_show ⟨0, 0, 0⟩ ⟨0, 0, 0, 0⟩ [⟨"bashd", 1234, some 2048⟩]

/-- The process row the claim expects for `("bashd", 1234, 8192)`. -/
def c2Row : String := "bashd                1234     8192        "

/-- The footer line the claim expects. -/
def c2Footer : String := "Total Processes: 1"

/-- C2, counterexample.  In the single-entry snapshot the expected
row and the expected footer both occur, but the footer does *not* come
immediately after the row: the line `Total Processes: 1` is not adjacent
to the row, because `proc_show` prints `"\nTotal Processes: %lu\n"`,
inserting a blank line first.  Hence the claim, which asserts the §6
layout with the footer immediately after the rows, is false. -/
theorem c2_footer_not_adjacent :
    ¬ (infixChars c2Row.data c2Out.data = true ∧
       infixChars c2Footer.data c2Out.data = true ∧
       infixChars (c2Row ++ "\n" ++ c2Footer).data c2Out.data = true) := by
  intro hcl
  have hfalse : infixChars (c2Row ++ "\n" ++ c2Footer).data c2Out.data = false := by
    decide
  rw [hcl.2.2] at hfalse
  exact Bool.noConfusion hfalse

/-- C2, amended.  The single-entry snapshot renders exactly the row
`bashd                1234     8192        ` (name left-justified to 20,
pid to 8, residentKB to 12) and the footer `Total Processes: 1`, but one
blank line separates the last row from the footer: the snapshot ends
with the row, an empty line, and the footer line. -/
theorem c2_row_and_footer_with_blank_line :
    infixChars c2Row.data c2Out.data = true ∧
    infixChars c2Footer.data c2Out.data = true ∧
    c2Out =
      headerText ++ cpuBlock ⟨0, 0, 0⟩ ++ memBlock ⟨0, 0, 0, 0⟩ ++ procHeaderText ++
        (c2Row ++ "\n") ++ ("\n" ++ c2Footer ++ "\n") := by
  refine ⟨by decide, by decide, by decide⟩

/-- C4.  For every rendered ProcessEntry the displayed Memory (KB)
value is exactly the total virtual page count times 4: as long as the
64-bit multiplication `total_vm * 4` does not wrap, `residentKB` equals
`totalVm * 4` and the rendered row displays that exact product in its
third column. -/
theorem residentKB_eq_four_times_pages (comm : String) (pid : Int) (tv : Nat)
    (h : tv * 4 < U64) :
    residentKB tv = tv * 4 ∧
    procRow comm pid tv =
      padRight comm 20 ++ " " ++ padRight (toString pid) 8 ++ " " ++
        padRight (toString (tv * 4)) 12 ++ "\n" := by
  have h1 : residentKB tv = tv * 4 := Nat.mod_eq_of_lt h
  exact ⟨h1, by rw [procRow, h1]⟩

theorem residentKB_eq_four_times_pages_witness :
    2048 * 4 < U64 ∧
    (residentKB 2048 = 2048 * 4 ∧
     procRow ("bashd") 1234 2048 =
       padRight ("bashd") 20 ++ " " ++ padRight (toString (1234 : Int)) 8 ++ " " ++
         padRight (toString (2048 * 4)) 12 ++ "\n") :=
  ⟨by decide, residentKB_eq_four_times_pages ("bashd") 1234 2048 (by decide)⟩

/-- C5.  The MB values displayed for Total RAM and Free RAM are
`pages * 4 / 1024` with integer division (as long as the 64-bit
multiplication `pages * 4` does not wrap), and a snapshot with
`totalPages = 1048576` displays `Total RAM:   1048576 pages (4096 MB)`. -/
theorem memBlock_mb_integer_division (mi : MemInfo)
    (hT : mi.totalram * 4 < U64) (hF : mi.freeram * 4 < U64) :
    mbOf mi.totalram = mi.totalram * 4 / 1024 ∧
    mbOf mi.freeram = mi.freeram * 4 / 1024 ∧
    memBlock mi =
      "Memory Statistics:\n" ++
      "  Total RAM:   " ++ toString mi.totalram ++ " pages (" ++
        toString (mi.totalram * 4 / 1024) ++ " MB)\n" ++
      "  Free RAM:    " ++ toString mi.freeram ++ " pages (" ++
        toString (mi.freeram * 4 / 1024) ++ " MB)\n" ++
      "  Shared RAM:  " ++ toString mi.sharedram ++ " pages\n" ++
      "  Buffer RAM:  " ++ toString mi.bufferram ++ " pages\n\n" ∧
    infixChars ("Total RAM:   1048576 pages (4096 MB)").data
      (memBlock ⟨1048576, 0, 0, 0⟩).data = true := by
  have h1 : mbOf mi.totalram = mi.totalram * 4 / 1024 := by
    rw [mbOf, Nat.mod_eq_of_lt hT]
  have h2 : mbOf mi.freeram = mi.freeram * 4 / 1024 := by
    rw [mbOf, Nat.mod_eq_of_lt hF]
  exact ⟨h1, h2, by rw [memBlock, h1, h2], by decide⟩

theorem memBlock_mb_integer_division_witness :
    1048576 * 4 < U64 ∧ 512 * 4 < U64 ∧
    (mbOf 1048576 = 1048576 * 4 / 1024 ∧
     mbOf 512 = 512 * 4 / 1024 ∧
     memBlock ⟨1048576, 512, 7, 9⟩ =
       "Memory Statistics:\n" ++
       "  Total RAM:   " ++ toString (1048576 : Nat) ++ " pages (" ++
         toString (1048576 * 4 / 1024 : Nat) ++ " MB)\n" ++
       "  Free RAM:    " ++ toString (512 : Nat) ++ " pages (" ++
         toString (512 * 4 / 1024 : Nat) ++ " MB)\n" ++
       "  Shared RAM:  " ++ toString (7 : Nat) ++ " pages\n" ++
       "  Buffer RAM:  " ++ toString (9 : Nat) ++ " pages\n\n" ∧
     infixChars ("Total RAM:   1048576 pages (4096 MB)").data
       (memBlock ⟨1048576, 0, 0, 0⟩).data = true) :=
  ⟨by decide, by decide,
    memBlock_mb_integer_division ⟨1048576, 512, 7, 9⟩ (by decide) (by decide)⟩

/-! ## Client (`src/monitor_app.c`) -/

/-- Constant `PROC_PATH`. -/
def PROC_PATH : String := "/proc/kernel_monitor"

/-- Constant `BUFFER_SIZE`. -/
def BUFFER_SIZE : Nat := 4096

/-- ANSI reset sequence (`COLOR_RESET`). -/
def COLOR_RESET : String := "\x1B[0m"

/-- ANSI red (`COLOR_RED`). -/
def COLOR_RED : String := "\x1B[31m"

/-- ANSI green (`COLOR_GREEN`). -/
def COLOR_GREEN : String := "\x1B[32m"

/-- ANSI blue (`COLOR_BLUE`). -/
def COLOR_BLUE : String := "\x1B[34m"

/-- ANSI bold (`COLOR_BOLD`). -/
def COLOR_BOLD : String := "\x1B[1m"

/-- The outcome of the single `open`-then-`read` of the exposition
endpoint performed by `read_kernel_data`: the open fails (module not
loaded, permission denied, ...), the read fails, or the read succeeds
and the endpoint holds `text`.  The `String` of the failure cases is the
`strerror(errno)` message. -/
inductive KernelRead where
  | openFail (err : String)
  | readFail (err : String)
  | ok (text : String)

/-- First `n` bytes of `s`: what `read(fd, buffer, n)` leaves in the
buffer when the endpoint holds `s` (the provider returns the whole text
in one read, so the read is short only when `s` is shorter). -/
def truncTo (n : Nat) (s : String) : String := String.mk (s.data.take n)

/-- The value `read` returns into `bytes_read`: at most
`BUFFER_SIZE - 1` bytes are requested. -/
def bytesRead (s : String) : Nat := min s.data.length (BUFFER_SIZE - 1)

/-- The stderr text printed by `read_kernel_data` when `open` fails. -/
def openFailMsg (err : String) : String :=
  COLOR_RED ++ "Error: Failed to open " ++ PROC_PATH ++ ": " ++ err ++ "\n" ++
    COLOR_RESET ++
  "Make sure the kernel module is loaded (insmod kernel_monitor.ko)\n"

/-- The stderr text printed by `read_kernel_data` when `read` fails. -/
def readFailMsg (err : String) : String :=
  COLOR_RED ++ "Error: Failed to read from " ++ PROC_PATH ++ ": " ++ err ++ "\n" ++
    COLOR_RESET

/-- Function `read_kernel_data(buffer, BUFFER_SIZE)`: on failure it prints a
diagnostic to stderr and returns `-1` (modelled as `none`); on success
the buffer holds the first `BUFFER_SIZE - 1` bytes of the endpoint text,
null-terminated at index `bytes_read`.  Result: (buffer contents if the
call succeeded, stderr output). -/
def read_kernel_data : KernelRead → Option String × String
  | KernelRead.openFail e => (none, openFailMsg e)
  | KernelRead.readFail e => (none, readFailMsg e)
  | KernelRead.ok text => (some (truncTo (BUFFER_SIZE - 1) text), "")

/-- Everything `display_data` prints before the snapshot text in
decorated (non-raw) mode: clear screen, home cursor, and the colored
banner box, followed by the `"\n"` of `printf("\n%s\n", buffer)`. -/
def decorPre : String :=
  "\x1B[2J\x1B[H" ++ COLOR_BOLD ++ COLOR_BLUE ++
  "╔" ++ String.mk (List.replicate 56 '═') ++ "╗\n" ++
  "║         Linux Kernel Monitor - Live View              ║\n" ++
  "╚" ++ String.mk (List.replicate 56 '═') ++ "╝\n" ++
  COLOR_RESET ++ "\n"

/-- Function `display_data(raw)`: reads the endpoint and prints the buffer, raw
(`printf("%s", buffer)`) or decorated; on a failed read it returns
having printed nothing to stdout.  Result: (stdout, stderr). -/
def display_data (raw : Bool) (w : KernelRead) : String × String :=
  match read_kernel_data w with
  | (none, err) => ("", err)
  | (some buf, _) => if raw then (buf, "") else (decorPre ++ buf ++ "\n", "")

/-- Observable actions of the client, in program order: a write to
stdout, a write to stderr, one open/read attempt of the endpoint
(`fetch`), or a `sleep(n)`. -/
inductive Ev where
  | out (s : String)
  | errOut (s : String)
  | fetch
  | sleepFor (n : Nat)
deriving DecidableEq

/-- The event trace of one `display_data(raw)` call: one fetch attempt,
then the stderr diagnostic (failure) or the stdout snapshot (success). -/
def displayEvents (raw : Bool) (w : KernelRead) : List Ev :=
  match w with
  | KernelRead.openFail e => [Ev.fetch, Ev.errOut (openFailMsg e)]
  | KernelRead.readFail e => [Ev.fetch, Ev.errOut (readFailMsg e)]
  | KernelRead.ok text => [Ev.fetch, Ev.out (display_data raw (KernelRead.ok text)).1]

/-- The start banner of `watch_mode`. -/
def watchBanner (interval : Nat) : String :=
  COLOR_GREEN ++ "Starting watch mode (updating every " ++ toString interval ++
    " seconds)...\n" ++
  "Press Ctrl+C to exit\n" ++ COLOR_RESET

/-- The `while (1)` body of `watch_mode`, observed for as many
iterations as `worlds` provides fetch outcomes: each iteration runs
`display_data(0)` against the next outcome and then sleeps for
`interval` seconds. -/
def watchIters (interval : Nat) : List KernelRead → List Ev
  | [] => []
  | w :: ws => displayEvents false w ++ Ev.sleepFor interval :: watchIters interval ws

/-- Function `watch_mode(interval)`: the start banner, the fixed `sleep(2)`
warm-up, then the infinite loop (observed along `worlds`). -/
def watch_mode (interval : Nat) (worlds : List KernelRead) : List Ev :=
  Ev.out (watchBanner interval) :: Ev.sleepFor 2 :: watchIters interval worlds

/-- Number of fetch attempts in a trace. -/
def countFetch : List Ev → Nat
  | [] => 0
  | Ev.fetch :: evs => countFetch evs + 1
  | _ :: evs => countFetch evs

/-- The `atoi` digit loop: consumes leading decimal digits, accumulating
their value; stops at the first non-digit. -/
def atoiDigits : Nat → List Char → Nat
  | acc, [] => acc
  | acc, c :: cs =>
    if c.isDigit then atoiDigits (acc * 10 + (c.toNat - 48)) cs else acc

/-- C `isspace`. -/
def isSpaceChar (c : Char) : Bool :=
  c == ' ' || c == '\t' || c == '\n' || c == '\x0B' || c == '\x0C' || c == '\r'

/-- Behavior of `atoi` on a character list: skip leading whitespace, accept one
optional sign, then convert leading digits; a string with no leading
digits converts to 0. -/
def atoiFrom : List Char → Int
  | [] => 0
  | c :: cs =>
    if isSpaceChar c then atoiFrom cs
    else if c == '-' then -(Int.ofNat (atoiDigits 0 cs))
    else if c == '+' then Int.ofNat (atoiDigits 0 cs)
    else Int.ofNat (atoiDigits 0 (c :: cs))

/-- C `atoi`, as called on `optarg`. -/
def atoi (s : String) : Int := atoiFrom s.data

/-- The option values `getopt_long(argc, argv, "hvrw:", ...)` hands to
the `switch` of `main`, in order: `'h'`, `'v'`, `'r'`, `'w'` with its
`optarg`, or any unrecognized option (`getopt` returns `'?'`, reaching
the `default:` branch). -/
inductive GetoptEvent where
  | optHelp
  | optVer
  | optRaw
  | optWatch (arg : String)
  | optUnknown

/-- How a run of `main` ends: a normal return with an exit code, the
accumulated stdout and stderr, and the number of fetch attempts made; or
entry into the non-terminating `watch_mode(interval)` loop. -/
inductive MainOutcome where
  | exits (code : Nat) (stdout : String) (stderr : String) (fetches : Nat)
  | watch (interval : Nat)
deriving DecidableEq

/-- The text printed by `print_usage(prog)`. -/
def usageText (prog : String) : String :=
  "Usage: " ++ prog ++ " [OPTIONS]\n" ++
  "Read and display Linux kernel monitoring data\n\n" ++
  "Options:\n" ++
  "  -h, --help       Display this help message\n" ++
  "  -v, --version    Display version information\n" ++
  "  -r, --raw        Display raw output without formatting\n" ++
  "  -w, --watch SEC  Continuously display data every SEC seconds\n" ++
  "\nExamples:\n" ++
  "  " ++ prog ++ "              Display current system statistics\n" ++
  "  " ++ prog ++ " -w 2         Update display every 2 seconds\n"

/-- The text printed by `print_version()`. -/
def versionText : String :=
  "Kernel Monitor Application v1.0.0\n" ++
  "Copyright (C) 2025 Mahmoud Ezzat\n"

/-- The stderr diagnostic for a non-positive `--watch` interval. -/
def invalidIntervalMsg : String := "Error: Invalid watch interval\n"

/-- The option-parsing `while` loop of `main` together with the mode
dispatch after it: processes the getopt events in order, tracking
`raw_mode` and `watch_interval`; help/version return 0 immediately, an
invalid interval returns 1 with a diagnostic, an unrecognized option
returns 1 after the usage text; when the events are exhausted, a
positive interval enters `watch_mode` and otherwise one
`display_data(raw_mode)` runs against `world` and `main` returns 0. -/
def optLoop (prog : String) (world : KernelRead) :
    List GetoptEvent → Bool → Int → MainOutcome
  | [], raw, wi =>
    if wi > 0 then MainOutcome.watch wi.toNat
    else
      MainOutcome.exits 0 (display_data raw world).1 (display_data raw world).2 1
  | GetoptEvent.optHelp :: _, _, _ => MainOutcome.exits 0 (usageText prog) "" 0
  | GetoptEvent.optVer :: _, _, _ => MainOutcome.exits 0 versionText ("") 0
  | GetoptEvent.optRaw :: rest, _, wi => optLoop prog world rest true wi
  | GetoptEvent.optWatch a :: rest, raw, _ =>
    if atoi a ≤ 0 then MainOutcome.exits 1 "" invalidIntervalMsg 0
    else optLoop prog world rest raw (atoi a)
  | GetoptEvent.optUnknown :: _, _, _ => MainOutcome.exits 1 (usageText prog) "" 0

/-- Function `main`: parse the options (with `raw_mode = 0`, `watch_interval = 0`
initially) and run the selected mode. -/
def mainRun (prog : String) (opts : List GetoptEvent) (world : KernelRead) :
    MainOutcome :=
  optLoop prog world opts false 0

/-- C3, counterexample.  Running the client with `--watch 0` makes
`main` return `EXIT_FAILURE` with no fetch attempted, stdout empty and
stderr holding only the `Error: Invalid watch interval` diagnostic — and
the usage text occurs nowhere in that output, refuting the part of the
claim that says the usage text is printed before exiting, as for an
unrecognized option. -/
theorem watch_zero_prints_error_not_usage :
    mainRun ("monitor_app") [GetoptEvent.optWatch ("0")] (KernelRead.ok ("snap"))
      = MainOutcome.exits 1 "" invalidIntervalMsg 0 ∧
    infixChars (usageText ("monitor_app")).data ("" ++ invalidIntervalMsg).data
      = false := by
  exact ⟨by decide, by decide⟩

/-- C3, amended.  For every `--watch` argument whose `atoi` value is
non-positive — in particular `"0"`, `"-1"` and `"abc"` — `main` exits
with code 1 before attempting any fetch, printing the
`Error: Invalid watch interval` diagnostic to stderr (not the usage
text); the usage text is printed, with exit code 1, for an unrecognized
option. -/
theorem watch_invalid_interval_exits_one (prog arg : String) (world : KernelRead)
    (h : atoi arg ≤ 0) :
    mainRun prog [GetoptEvent.optWatch arg] world
      = MainOutcome.exits 1 "" invalidIntervalMsg 0 ∧
    mainRun prog [GetoptEvent.optUnknown] world
      = MainOutcome.exits 1 (usageText prog) "" 0 ∧
    atoi ("0") ≤ 0 ∧ atoi ("-1") ≤ 0 ∧ atoi ("abc") ≤ 0 := by
  refine ⟨?_, rfl, by decide, by decide, by decide⟩
  simp [mainRun, optLoop, h]

theorem watch_invalid_interval_exits_one_witness :
    atoi ("-1") ≤ 0 ∧
    (mainRun ("monitor_app") [GetoptEvent.optWatch ("-1")] (KernelRead.ok ("S"))
       = MainOutcome.exits 1 "" invalidIntervalMsg 0 ∧
     mainRun ("monitor_app") [GetoptEvent.optUnknown] (KernelRead.ok ("S"))
       = MainOutcome.exits 1 (usageText ("monitor_app")) "" 0 ∧
     atoi ("0") ≤ 0 ∧ atoi ("-1") ≤ 0 ∧ atoi ("abc") ≤ 0) :=
  ⟨by decide,
    watch_invalid_interval_exits_one ("monitor_app") ("-1") (KernelRead.ok ("S"))
      (by decide)⟩

/-- C6.  When the open or the read of the exposition endpoint fails,
`display_data` prints nothing to stdout, prints the corresponding
diagnostic (naming the path and the underlying cause) to stderr, and
`read_kernel_data` returns `-1` normally (modelled by the total function
returning `none`) — no process-terminating error is raised. -/
theorem fetch_failure_prints_diagnostic_only (raw : Bool) (e : String) :
    (read_kernel_data (KernelRead.openFail e)).1 = none ∧
    (read_kernel_data (KernelRead.readFail e)).1 = none ∧
    (display_data raw (KernelRead.openFail e)).1 = "" ∧
    (display_data raw (KernelRead.readFail e)).1 = "" ∧
    (display_data raw (KernelRead.openFail e)).2 = openFailMsg e ∧
    (display_data raw (KernelRead.readFail e)).2 = readFailMsg e ∧
    (∃ rest, openFailMsg e =
      COLOR_RED ++ "Error: Failed to open " ++ PROC_PATH ++ ": " ++ rest) ∧
    (∃ rest, readFailMsg e =
      COLOR_RED ++ "Error: Failed to read from " ++ PROC_PATH ++ ": " ++ rest) :=
  ⟨rfl, rfl, rfl, rfl, rfl, rfl, ⟨_, rfl⟩, ⟨_, rfl⟩⟩

/-- C7.  For every positive interval, `watch_mode` emits the start
banner and the fixed `sleep(2)` warm-up, then the loop; every loop
iteration is one `display_data(0)` (`decorate = true`) call followed by
`sleep(interval)`; and the number of fetch attempts always equals the
number of iterations observed, whatever the fetch outcomes are — a
failed fetch never terminates or escapes the loop. -/
theorem watch_loop_structure_and_resilience (interval : Nat) (_hpos : 0 < interval)
    (worlds : List KernelRead) (w : KernelRead) (ws : List KernelRead) :
    watch_mode interval worlds =
      Ev.out (watchBanner interval) :: Ev.sleepFor 2 :: watchIters interval worlds ∧
    countFetch (watchIters interval worlds) = worlds.length ∧
    watchIters interval (w :: ws) =
      displayEvents false w ++ Ev.sleepFor interval :: watchIters interval ws := by
  refine ⟨rfl, ?_, rfl⟩
  induction worlds with
  | nil => rfl
  | cons x xs ih => cases x <;> simp [watchIters, displayEvents, countFetch, ih]

theorem watch_loop_structure_and_resilience_witness :
    0 < 1 ∧
    (watch_mode 1 [KernelRead.openFail ("e")] =
       Ev.out (watchBanner 1) :: Ev.sleepFor 2 ::
         watchIters 1 [KernelRead.openFail ("e")] ∧
     countFetch (watchIters 1 [KernelRead.openFail ("e")]) =
       [KernelRead.openFail ("e")].length ∧
     watchIters 1 (KernelRead.readFail ("x") :: []) =
       displayEvents false (KernelRead.readFail ("x")) ++
         Ev.sleepFor 1 :: watchIters 1 []) :=
  ⟨Nat.one_pos,
    watch_loop_structure_and_resilience 1 Nat.one_pos
      [KernelRead.openFail ("e")] (KernelRead.readFail ("x")) []⟩

/-- A provider text of exactly `BUFFER_SIZE` bytes, one byte longer than
the largest text the client can read back intact. -/
def bigText : String := String.mk (List.replicate BUFFER_SIZE 'a')

theorem bigText_length : bigText.data.length = BUFFER_SIZE :=
  List.length_replicate _ _

/-- C8, counterexample.  For the successful fetch of a 4096-byte
provider text, the `--raw` output is *not* the provider text byte for
byte: the single `read` of at most `BUFFER_SIZE - 1 = 4095` bytes
truncates it. -/
theorem raw_not_byte_for_byte :
    (display_data true (KernelRead.ok bigText)).1 ≠ bigText := by
  intro heq
  have h1 : (display_data true (KernelRead.ok bigText)).1
      = String.mk (bigText.data.take (BUFFER_SIZE - 1)) := rfl
  rw [h1] at heq
  have hlen := congrArg (fun s => s.data.length) heq
  simp only [bigText, BUFFER_SIZE, List.length_take, List.length_replicate] at hlen
  omega

/-- C8, amended.  For every successful fetch whose provider text is
at most `BUFFER_SIZE - 1 = 4095` bytes (texts beyond that are
truncated), the `--raw` output is exactly the provider text with nothing
else on either stream, and the default (non-raw) output is the banner
and screen-clear prefix, then the raw text as one contiguous substring,
then a final newline. -/
theorem raw_exact_decorated_contains (text : String)
    (h : text.data.length ≤ BUFFER_SIZE - 1) :
    (display_data true (KernelRead.ok text)).1 = text ∧
    (display_data true (KernelRead.ok text)).2 = "" ∧
    (display_data false (KernelRead.ok text)).1 = decorPre ++ text ++ "\n" ∧
    (display_data false (KernelRead.ok text)).2 = "" := by
  have ht : truncTo (BUFFER_SIZE - 1) text = text := by
    cases text with
    | mk l =>
      show String.mk (l.take (BUFFER_SIZE - 1)) = String.mk l
      rw [List.take_of_length_le h]
  refine ⟨?_, rfl, ?_, rfl⟩
  · show truncTo (BUFFER_SIZE - 1) text = text
    exact ht
  · show decorPre ++ truncTo (BUFFER_SIZE - 1) text ++ "\n" = decorPre ++ text ++ "\n"
    rw [ht]

theorem raw_exact_decorated_contains_witness :
    ("hello").data.length ≤ BUFFER_SIZE - 1 ∧
    ((display_data true (KernelRead.ok ("hello"))).1 = "hello" ∧
     (display_data true (KernelRead.ok ("hello"))).2 = "" ∧
     (display_data false (KernelRead.ok ("hello"))).1 = decorPre ++ "hello" ++ "\n" ∧
     (display_data false (KernelRead.ok ("hello"))).2 = "") :=
  ⟨by decide, raw_exact_decorated_contains ("hello") (by decide)⟩

/-- C10.  The client performs exactly one read of at most
`BUFFER_SIZE - 1 = 4095` bytes into the 4096-byte buffer, so the null
terminator written at index `bytes_read` is always within bounds
(`bytesRead text < BUFFER_SIZE`); consequently any provider text longer
than 4095 bytes is silently truncated, in both the raw and the decorated
output. -/
theorem read_bounded_and_truncates (text : String) :
    bytesRead text ≤ BUFFER_SIZE - 1 ∧
    bytesRead text < BUFFER_SIZE ∧
    read_kernel_data (KernelRead.ok text)
      = (some (truncTo (BUFFER_SIZE - 1) text), "") ∧
    (truncTo (BUFFER_SIZE - 1) text).data.length = bytesRead text ∧
    (BUFFER_SIZE - 1 < text.data.length →
      (display_data true (KernelRead.ok text)).1 ≠ text ∧
      (display_data true (KernelRead.ok text)).1 = truncTo (BUFFER_SIZE - 1) text ∧
      (display_data false (KernelRead.ok text)).1 =
        decorPre ++ truncTo (BUFFER_SIZE - 1) text ++ "\n") := by
  refine ⟨Nat.min_le_right _ _, ?_, rfl, ?_, fun hlong => ⟨?_, rfl, rfl⟩⟩
  · have h1 : bytesRead text ≤ BUFFER_SIZE - 1 := Nat.min_le_right _ _
    simp only [BUFFER_SIZE] at h1 ⊢
    omega
  · simp [truncTo, bytesRead, List.length_take, Nat.min_comm]
  · intro ho
    have hlen := congrArg (fun s => s.data.length) ho
    simp only [truncTo, List.length_take] at hlen
    have : (display_data true (KernelRead.ok text)).1
        = String.mk (text.data.take (BUFFER_SIZE - 1)) := rfl
    rw [this] at hlen
    simp only [List.length_take] at hlen
    omega

theorem read_bounded_and_truncates_witness :
    BUFFER_SIZE - 1 < bigText.data.length ∧
    (bytesRead bigText ≤ BUFFER_SIZE - 1 ∧
     bytesRead bigText < BUFFER_SIZE ∧
     read_kernel_data (KernelRead.ok bigText)
       = (some (truncTo (BUFFER_SIZE - 1) bigText), "") ∧
     (truncTo (BUFFER_SIZE - 1) bigText).data.length = bytesRead bigText ∧
     (BUFFER_SIZE - 1 < bigText.data.length →
       (display_data true (KernelRead.ok bigText)).1 ≠ bigText ∧
       (display_data true (KernelRead.ok bigText)).1
         = truncTo (BUFFER_SIZE - 1) bigText ∧
       (display_data false (KernelRead.ok bigText)).1 =
         decorPre ++ truncTo (BUFFER_SIZE - 1) bigText ++ "\n")) :=
  ⟨by rw [bigText_length]; decide, read_bounded_and_truncates bigText⟩

/-! ## Reference acquisition trace of the `for_each_process` loop -/

/-- The resource-relevant effects of the per-process body of
`proc_show`, in program order: `get_task_mm` returning non-NULL takes a
reference (`acq`), the row print reads `mm->total_vm` (`readPages`), and
`mmput` drops the reference (`rel`). -/
inductive PEv where
  | acq (pid : Int)
  | readPages (pid : Int)
  | rel (pid : Int)
deriving DecidableEq

/-- The effect trace of visiting one task: a task whose mapping is
unavailable (`get_task_mm` returns NULL) contributes nothing — no
reference is taken, so none is released; a task with a mapping is
acquired, read, and released immediately. -/
def taskEvents (t : Task) : List PEv :=
  match t.mm with
  | none => []
  | some _ => [PEv.acq t.pid, PEv.readPages t.pid, PEv.rel t.pid]

/-- The effect trace of the whole `for_each_process` loop. -/
def procTrace : List Task → List PEv
  | [] => []
  | t :: ts => taskEvents t ++ procTrace ts

/-- Checker for the scoped-acquisition discipline, tracking which single
reference (if any) is currently held: acquiring is legal only while
holding nothing, reading pages and releasing are legal only for the
mapping currently held, and the trace must end holding nothing. -/
def scopedFrom : Option Int → List PEv → Bool
  | none, [] => true
  | some _, [] => false
  | none, PEv.acq p :: evs => scopedFrom (some p) evs
  | some _, PEv.acq _ :: _ => false
  | some q, PEv.readPages p :: evs => p == q && scopedFrom (some q) evs
  | none, PEv.readPages _ :: _ => false
  | some q, PEv.rel p :: evs => p == q && scopedFrom none evs
  | none, PEv.rel _ :: _ => false

/-- Number of `acq` events in a trace. -/
def countAcq : List PEv → Nat
  | [] => 0
  | PEv.acq _ :: evs => countAcq evs + 1
  | _ :: evs => countAcq evs

/-- Number of `rel` events in a trace. -/
def countRel : List PEv → Nat
  | [] => 0
  | PEv.rel _ :: evs => countRel evs + 1
  | _ :: evs => countRel evs

theorem scopedFrom_taskEvents_append (t : Task) (evs : List PEv) :
    scopedFrom none (taskEvents t ++ evs) = scopedFrom none evs := by
  cases h : t.mm <;> simp [taskEvents, scopedFrom, h]

/-- C9.  On every control path of the process loop the mapping
reference discipline holds: the full trace satisfies the scoped checker
(references are acquired only when none is held, each acquired mapping
is read and then released exactly once, immediately, and nothing is
held at the end — no leak), acquisitions and releases balance exactly,
the number of acquisitions equals the `total_processes` counter, and a
task without a resolvable mapping contributes no events at all (skipped
without a release). -/
theorem mm_acquire_release_paired (tasks : List Task) :
    scopedFrom none (procTrace tasks) = true ∧
    countAcq (procTrace tasks) = countRel (procTrace tasks) ∧
    countAcq (procTrace tasks) = (procLoop tasks).2 ∧
    (∀ t : Task, t.mm = none → taskEvents t = []) := by
  refine ⟨?_, ?_, ?_, fun t ht => by simp [taskEvents, ht]⟩
  · induction tasks with
    | nil => rfl
    | cons t ts ih => rw [procTrace, scopedFrom_taskEvents_append, ih]
  · induction tasks with
    | nil => rfl
    | cons t ts ih =>
      cases h : t.mm <;> simp [procTrace, taskEvents, countAcq, countRel, h, ih]
  · induction tasks with
    | nil => rfl
    | cons t ts ih =>
      cases h : t.mm <;> simp [procTrace, taskEvents, countAcq, procLoop, h, ih]

end KernelMonitor
